import Mathlib

/-
  Verification development for the lloyds-list-mcp repository.

  The Python sources under src/lloyds_list_mcp are shallowly embedded below:

  * article_fetcher.py : paywall classifier and article fetch flow
    (namespace ArticleFetcher);
  * session_manager.py : encrypted session store, in-memory backend
    (namespace SessionManager);
  * config.py          : Settings with its defaults;
  * rss_parser.py      : feed catalog, cache freshness, summary cleaning,
    feed routing and article search (namespace RSSFeedManager);
  * server.py          : the get_article_content tool (namespace Server).

  External collaborators are modelled as explicit parameters, never
  re-implemented: the network is an HttpResult value, BeautifulSoup
  parsing is replaced by operating directly on a parsed Html tree,
  json.dumps / json.loads and the Fernet cipher are function parameters
  whose round-trip contracts appear as hypotheses where a theorem needs
  them, and time.time() is an explicit Int parameter.

  HTML documents are modelled as a mutual inductive (element / text
  forest) so that every traversal is structurally recursive and reduces
  inside the kernel, letting witnesses evaluate by decide.
-/

/- ------------------------------------------------------------------ -/
/- Generic string helpers (Python semantics)                          -/
/- ------------------------------------------------------------------ -/

/-- Boolean substring test on lists: Python `needle in hay`. -/
def listSub [DecidableEq α] : List α → List α → Bool
  | needle, [] => needle.isEmpty
  | needle, a :: as => (needle.isPrefixOf (a :: as) : Bool) || listSub needle as

/-- Python `needle in hay` on strings. -/
def strHasSub (hay needle : String) : Bool := listSub needle.data hay.data

/-- Python `s.lower()` (ASCII case folding, which is all the source relies on). -/
def lowerStr (s : String) : String := ⟨s.data.map Char.toLower⟩

/-- Python `s.strip()`: drop leading and trailing whitespace. -/
def pyStrip (s : String) : String :=
  ⟨((s.data.dropWhile Char.isWhitespace).reverse.dropWhile Char.isWhitespace).reverse⟩

/-- Python `str(...)` of a list of strings, e.g. `['a', 'b']`. -/
def pyStrList (xs : List String) : String :=
  "[" ++ String.intercalate ", " (xs.map (fun s => "'" ++ s ++ "'")) ++ "]"

/-- Helper for Python `value.split()`: running word accumulator. -/
def splitWsAux : List Char → List Char × List String
  | [] => ([], [])
  | c :: rest =>
    let (cur, ws) := splitWsAux rest
    if c.isWhitespace then
      ([], if cur.isEmpty then ws else String.mk cur :: ws)
    else (c :: cur, ws)

/-- Python `value.split()`: split on whitespace, dropping empty pieces. -/
def splitWs (s : String) : List String :=
  let (cur, ws) := splitWsAux s.data
  if cur.isEmpty then ws else String.mk cur :: ws

/-- First-match association-list lookup: Python dict indexing / `in`. -/
def alookup [DecidableEq κ] (k : κ) : List (κ × α) → Option α
  | [] => none
  | (k', v) :: rest => if k = k' then some v else alookup k rest

theorem listSub_iff [DecidableEq α] (n h : List α) : listSub n h = true ↔ n <:+: h := by
  induction h with
  | nil => simp [listSub, List.isEmpty_iff]
  | cons a as ih =>
    simp [listSub, ih, List.infix_cons_iff, List.isPrefixOf_iff_prefix]

/-- A substring of `t` is a substring of `s ++ t`. -/
theorem strHasSub_append_left (s t n : String) (h : strHasSub t n = true) :
    strHasSub (s ++ t) n = true := by
  rw [strHasSub, listSub_iff] at h ⊢
  show n.data <:+: s.data ++ t.data
  obtain ⟨u, v, hv⟩ := h
  exact ⟨s.data ++ u, v, by rw [← hv]; simp⟩

/- ------------------------------------------------------------------ -/
/- HTML documents (the output of BeautifulSoup parsing)               -/
/- ------------------------------------------------------------------ -/

mutual
/-- A parsed HTML node: a text node, or an element with a tag name,
an attribute list and children. -/
inductive Html where
  | text : String → Html
  | elem : String → List (String × String) → HtmlList → Html
/-- A forest of HTML nodes (children of an element, or a whole document). -/
inductive HtmlList where
  | nil : HtmlList
  | cons : Html → HtmlList → HtmlList
end

/-- Convert an ordinary list of nodes to an `HtmlList`. -/
def HtmlList.ofList : List Html → HtmlList
  | [] => .nil
  | h :: t => .cons h (HtmlList.ofList t)

/-- Convenience constructor for an element from a plain child list. -/
def el (tag : String) (attrs : List (String × String)) (cs : List Html) : Html :=
  Html.elem tag attrs (HtmlList.ofList cs)

mutual
/-- All text-node strings of a node, in document order (BeautifulSoup `.strings`). -/
def Html.strings : Html → List String
  | .text s => [s]
  | .elem _ _ cs => cs.strings
/-- All text-node strings of a forest, in document order. -/
def HtmlList.strings : HtmlList → List String
  | .nil => []
  | .cons h t => h.strings ++ t.strings
end

/-- BeautifulSoup `get_text()` (separator empty, no stripping). -/
def HtmlList.getText (f : HtmlList) : String := String.join f.strings

/-- BeautifulSoup `get_text(strip=True)`: concatenate the stripped strings,
skipping those that strip to empty. -/
def HtmlList.getTextStrip (f : HtmlList) : String :=
  String.join ((f.strings.map pyStrip).filter (fun s => ¬ s.isEmpty))

/-- BeautifulSoup `get_text(separator=" ", strip=True)`: join the stripped
non-empty strings with single spaces. -/
def HtmlList.getTextSpaceStrip (f : HtmlList) : String :=
  String.intercalate " " ((f.strings.map pyStrip).filter (fun s => ¬ s.isEmpty))

/-- The multi-valued `class` attribute of an attribute list
(BeautifulSoup splits the attribute value on whitespace). -/
def classesOf (attrs : List (String × String)) : List String :=
  match alookup "class" attrs with
  | none => []
  | some v => splitWs v

/-- Does some class string of this attribute list satisfy `p`?  This is
`find_all(class_=p)` membership for one element: BeautifulSoup applies the
predicate to each class value (its extra fallback on the space-joined class
string adds nothing for the space-free needles used in the source). -/
def classHit (p : String → Bool) (attrs : List (String × String)) : Bool :=
  (classesOf attrs).any p

mutual
/-- Is there an element (anywhere in the node) whose class list has a
class satisfying `p`?  Models `soup.find_all(class_=p) != []`. -/
def Html.existsElemClass (p : String → Bool) : Html → Bool
  | .text _ => false
  | .elem _ attrs cs => classHit p attrs || cs.existsElemClass p
/-- Forest version of `Html.existsElemClass`. -/
def HtmlList.existsElemClass (p : String → Bool) : HtmlList → Bool
  | .nil => false
  | .cons h t => h.existsElemClass p || t.existsElemClass p
end

mutual
/-- First element with the given tag, in document pre-order
(`soup.find(tag)`); returns its children forest and attributes. -/
def Html.findByTag (tag : String) : Html → Option (List (String × String) × HtmlList)
  | .text _ => none
  | .elem t attrs cs => if t = tag then some (attrs, cs) else cs.findByTag tag
/-- Forest version of `Html.findByTag`. -/
def HtmlList.findByTag (tag : String) : HtmlList → Option (List (String × String) × HtmlList)
  | .nil => none
  | .cons h rest =>
    match h.findByTag tag with
    | some r => some r
    | none => rest.findByTag tag
end

mutual
/-- First element whose class list has a class satisfying `p`, in document
pre-order (`soup.find(class_=p)`). -/
def Html.findByClass (p : String → Bool) : Html → Option (List (String × String) × HtmlList)
  | .text _ => none
  | .elem _ attrs cs =>
    if classHit p attrs then some (attrs, cs) else cs.findByClass p
/-- Forest version of `Html.findByClass`. -/
def HtmlList.findByClass (p : String → Bool) : HtmlList → Option (List (String × String) × HtmlList)
  | .nil => none
  | .cons h rest =>
    match h.findByClass p with
    | some r => some r
    | none => rest.findByClass p
end

/- ------------------------------------------------------------------ -/
/- JSON values (Python dicts passed around as session state)          -/
/- ------------------------------------------------------------------ -/

/-- A JSON value: the shape of Python data that json.dumps accepts.
Numbers are modelled as integers; no claim depends on float payloads. -/
inductive Json where
  | null : Json
  | bool : Bool → Json
  | num : Int → Json
  | str : String → Json
  | arr : List Json → Json
  | obj : List (String × Json) → Json

/-- Python truthiness of a JSON value (`if x:`). -/
def Json.truthy : Json → Bool
  | .null => false
  | .bool b => b
  | .num n => decide (n ≠ 0)
  | .str s => decide (s ≠ "")
  | .arr xs => !xs.isEmpty
  | .obj fs => !fs.isEmpty

/- ------------------------------------------------------------------ -/
/- article_fetcher.py : ArticleFetcher                                -/
/- ------------------------------------------------------------------ -/

namespace ArticleFetcher

/-- `ArticleFetcher.PAYWALL_INDICATORS`, in the order of the source. -/
def PAYWALL_INDICATORS : List String :=
  [ "paywall",
    "subscriber-only",
    "restricted-content",
    "premium-content",
    "subscription-required",
    "sign in to continue",
    "subscribe to read",
    "subscription required",
    "become a subscriber",
    "log in to view" ]

/-- The truncation indicator list local to `_detect_paywall`. -/
def truncation_indicators : List String :=
  [ "continue reading",
    "read more",
    "view full article",
    "full story available to subscribers" ]

/-- The call-to-action phrases of the button rule in `_detect_paywall`. -/
def cta_phrases : List String :=
  [ "sign in", "log in", "subscribe", "become a member" ]

/-- Rule 1 selector filter from the source:
`"class" in indicator or "-" in indicator`. -/
def isClassIndicator (ind : String) : Bool :=
  strHasSub ind "class" || strHasSub ind "-"

/-- The class-matching lambda of rule 1:
`lambda x: x and indicator in x.lower()`. -/
def classLambda (ind : String) (x : String) : Bool :=
  !x.isEmpty && strHasSub (lowerStr x) ind

/-- First paywall indicator whose class check fires (rule 1 loop). -/
def rule1 (doc : HtmlList) : Option String :=
  PAYWALL_INDICATORS.find? (fun ind =>
    isClassIndicator ind && doc.existsElemClass (classLambda ind))

/-- `parent.get("class", [])` rendered through Python `str(...)` and
lowercased, as in the button rule of `_detect_paywall`. -/
def parentClassStr (attrs : List (String × String)) : String :=
  lowerStr (pyStrList (classesOf attrs))

/-- Does a button or link with this text fire the call-to-action rule,
given the attributes of its nearest main/article/div ancestor (if any)? -/
def buttonFires (nearest : Option (List (String × String))) (btext : String) : Bool :=
  cta_phrases.any (fun x => strHasSub btext x) &&
    match nearest with
    | none => false
    | some pattrs => !strHasSub (parentClassStr pattrs) "header"

mutual
/-- Rule 4 scan over a node: walk every `button`/`a` element in document
order, checking its lowercased text against the call-to-action phrases
and its nearest enclosing main/article/div ancestor (`find_parent`)
against the header-class exclusion.  `nearest` carries the attributes of
the closest such ancestor seen so far on the path from the root. -/
def rule4Node (nearest : Option (List (String × String))) : Html → Bool
  | .text _ => false
  | .elem tag attrs cs =>
    (if tag = "button" ∨ tag = "a" then buttonFires nearest (lowerStr cs.getText) else false)
      || rule4Forest (if tag = "main" ∨ tag = "article" ∨ tag = "div" then some attrs else nearest) cs
/-- Forest version of `rule4Node`. -/
def rule4Forest (nearest : Option (List (String × String))) : HtmlList → Bool
  | .nil => false
  | .cons h t => rule4Node nearest h || rule4Forest nearest t
end

/-- The article-body lookup in rule 3:
`soup.find("article") or soup.find(class_=lambda x: x and "article" in str(x).lower())`. -/
def findArticleBody (doc : HtmlList) : Option (List (String × String) × HtmlList) :=
  match doc.findByTag "article" with
  | some r => some r
  | none => doc.findByClass (classLambda "article")

/-- Shallow embedding of `ArticleFetcher._detect_paywall`: the four-rule
heuristic chain, returning `(is_paywalled, reason)`. -/
def detect_paywall (doc : HtmlList) : Bool × Option String :=
  match rule1 doc with
  | some ind => (true, some ("Found paywall class: " ++ ind))
  | none =>
    let text_content := lowerStr doc.getText
    match PAYWALL_INDICATORS.find? (fun ind =>
        strHasSub ind " " && strHasSub text_content ind) with
    | some ind => (true, some ("Found paywall text: " ++ ind))
    | none =>
      match truncation_indicators.find? (fun ind => strHasSub text_content ind) with
      | some ind =>
        match findArticleBody doc with
        | some (_, body) =>
          if body.getTextStrip.data.length < 500 then
            (true, some ("Truncated content detected: " ++ ind))
          else if rule4Forest none doc then
            (true, some "Sign in/Subscribe button found in content area")
          else (false, none)
        | none =>
          if rule4Forest none doc then
            (true, some "Sign in/Subscribe button found in content area")
          else (false, none)
      | none =>
        if rule4Forest none doc then
          (true, some "Sign in/Subscribe button found in content area")
        else (false, none)

/-- An extracted article record, the keys produced by
`_extract_article_content`. -/
structure ArticleRecord where
  url : String
  title : String
  full_text : String
  author : Option String
  date : Option String
  tags : List String
  images : List (String × String)
deriving DecidableEq, Repr

/-- Outcome of one network GET: parsed HTML on success (parsing is the
external library), or a raised httpx error. -/
inductive HttpResult where
  | ok : HtmlList → HttpResult
  | err : String → HttpResult

/-- The result dictionary of `fetch_article` / `_fetch_authenticated`:
only the keys the source actually sets, optional when branch-dependent. -/
structure FetchOutcome where
  status : String
  paywall : Option Bool := none
  message : Option String := none
  url : Option String := none
  reason : Option String := none
  article : Option ArticleRecord := none
deriving DecidableEq, Repr

/-- `_fetch_authenticated`, with the authenticated network GET passed in
as `authResp` (cookie assembly only shapes that request) and content
extraction as `extract`. -/
def fetch_authenticated (extract : HtmlList → String → ArticleRecord)
    (authResp : HttpResult) (url : String) : FetchOutcome :=
  match authResp with
  | .err e =>
    { status := "error",
      message := some ("Failed to fetch authenticated article: " ++ e),
      url := some url }
  | .ok html =>
    { status := "success", paywall := some true,
      article := some (extract html url) }

/-- Shallow embedding of `ArticleFetcher.fetch_article`.  `resp` is the
unauthenticated GET of `url`, `authResp` the authenticated one, and
`extract` stands for `_extract_article_content` (selector plumbing that
no claim touches).  `storage_state` keeps Python truthiness: a missing
argument and an empty dict both take the no-authentication branch. -/
def fetch_article (extract : HtmlList → String → ArticleRecord)
    (resp authResp : HttpResult) (url : String)
    (storage_state : Option Json) : FetchOutcome :=
  match resp with
  | .err e =>
    { status := "error", message := some ("Failed to fetch article: " ++ e),
      url := some url }
  | .ok html =>
    let pd := detect_paywall html
    if pd.1 = false then
      { status := "success", paywall := some false,
        article := some (extract html url) }
    else
      if (match storage_state with | none => false | some j => j.truthy) = false then
        { status := "authentication_required", paywall := some true,
          message := some "This article requires a Lloyd's List subscription",
          url := some url, reason := pd.2 }
      else fetch_authenticated extract authResp url

end ArticleFetcher

/- ------------------------------------------------------------------ -/
/- config.py : Settings                                               -/
/- ------------------------------------------------------------------ -/

/-- `config.Settings`: the environment-configurable values, with the
defaults of the source (only the fields the embedded components read). -/
structure Settings where
  cache_dir : String := ".cache"
  feed_cache_ttl : Int := 300
  session_store : String := "memory"
  session_ttl : Int := 86400
  session_secret_key : String := "dev-secret-key-change-in-production"

/-- A `Settings()` instance with no environment overrides. -/
def defaultSettings : Settings := {}

/- ------------------------------------------------------------------ -/
/- session_manager.py : MemorySessionStore and SessionManager         -/
/- ------------------------------------------------------------------ -/

namespace SessionManager

/-- The symmetric cipher (`cryptography.fernet.Fernet`), kept abstract:
`encrypt` always succeeds, `decrypt` may fail (InvalidToken).  Its
round-trip contract enters theorems as a hypothesis where needed. -/
structure Cipher where
  encrypt : String → String
  decrypt : String → Option String

/-- One stored session record, the dict built by `create_session`.  The
`playwright_session` slot holds either the encrypted text stored by
`create_session` or, after a successful `get_session` (which mutates the
shared dict in place), the decrypted JSON value. -/
structure StoredSession where
  user_id : String
  created_at : Int
  playwright_session : String ⊕ Json

/-- The decrypted view `get_session` returns to its caller. -/
structure SessionView where
  user_id : String
  created_at : Int
  playwright_session : Json

/-- `MemorySessionStore._store`: session id to (data, expires_at). -/
def Store := List (String × StoredSession × Int)

/-- Python `ttl = ttl or settings.session_ttl` (`0` is falsy). -/
def effectiveTtl (stg : Settings) (ttl : Option Int) : Int :=
  match ttl with
  | none => stg.session_ttl
  | some t => if t = 0 then stg.session_ttl else t

/-- `MemorySessionStore.set`: overwrite the entry for the id with the
data and its freshly computed expiry time. -/
def storeSet (stg : Settings) (now : Int) (sid : String) (d : StoredSession)
    (ttl : Option Int) (st : Store) : Store :=
  (sid, d, now + effectiveTtl stg ttl) :: st.filter (fun e => e.1 ≠ sid)

/-- `MemorySessionStore.delete` (`pop(session_id, None)`): idempotent removal. -/
def storeDelete (sid : String) (st : Store) : Store :=
  st.filter (fun e => e.1 ≠ sid)

/-- `MemorySessionStore.get`: absent id gives None; an entry past its
expiry is deleted and reported None; otherwise the stored data (a
reference to the shared dict) is returned. -/
def storeGet (now : Int) (sid : String) (st : Store) : Option StoredSession × Store :=
  match alookup sid st with
  | none => (none, st)
  | some (d, expires_at) =>
    if now > expires_at then (none, storeDelete sid st) else (some d, st)

/-- Replace the `playwright_session` slot of the entry for `sid`: the
in-place dict mutation done by a successful `get_session`. -/
def storeReplaceSession (sid : String) (ps : Json) (st : Store) : Store :=
  st.map (fun e => if e.1 = sid then (e.1, { e.2.1 with playwright_session := .inr ps }, e.2.2) else e)

/-- Shallow embedding of `SessionManager.create_session` with the memory
backend.  `dumps` is `json.dumps`, `sid` the generated
`secrets.token_urlsafe(32)` (external randomness), `now` is
`time.time()`.  Returns the session id and the updated store. -/
def create_session (c : Cipher) (dumps : Json → String) (stg : Settings)
    (now : Int) (sid : String) (user_id : String) (playwright_session : Json)
    (ttl : Option Int) (st : Store) : String × Store :=
  let data : StoredSession :=
    { user_id := user_id, created_at := now,
      playwright_session := .inl (c.encrypt (dumps playwright_session)) }
  (sid, storeSet stg now sid data ttl st)

/-- Shallow embedding of `SessionManager.get_session` with the memory
backend.  `loads` is `json.loads`.  On a miss the store is unchanged; if
the stored slot does not decrypt-and-parse (including the case where a
previous get already replaced it by a dict, on which `.encode()` raises)
the record is deleted and None returned; on success the caller gets the
decrypted view and the shared dict now holds the plaintext session. -/
def get_session (c : Cipher) (loads : String → Option Json) (now : Int)
    (sid : String) (st : Store) : Option SessionView × Store :=
  match storeGet now sid st with
  | (none, st1) => (none, st1)
  | (some d, st1) =>
    match d.playwright_session with
    | .inr _ => (none, storeDelete sid st1)
    | .inl blob =>
      match (c.decrypt blob).bind loads with
      | none => (none, storeDelete sid st1)
      | some ps =>
        (some { user_id := d.user_id, created_at := d.created_at,
                playwright_session := ps },
         storeReplaceSession sid ps st1)

end SessionManager

/- ------------------------------------------------------------------ -/
/- rss_parser.py : cache freshness                                    -/
/- ------------------------------------------------------------------ -/

namespace RSSFeedManager

/-- Shallow embedding of `RSSFeedManager._is_cache_valid`.  The cache
file is abstracted to its optional mtime: `none` when
`cache_path.exists()` is false.  `now` is `time.time()` and `cache_ttl`
the `settings.feed_cache_ttl` captured at construction. -/
def is_cache_valid (mtime : Option Int) (now cache_ttl : Int) : Bool :=
  match mtime with
  | none => false
  | some m => decide (now - m < cache_ttl)

end RSSFeedManager

/- ------------------------------------------------------------------ -/
/- rss_parser.py : feed catalog, summary cleaning, routing, search    -/
/- ------------------------------------------------------------------ -/

namespace RSSFeedManager

/-- `FEEDS["sectors"]`, in source insertion order. -/
def sectorFeeds : List (String × String) :=
  [ ("Containers", "https://lloydslist.maritimeintelligence.informa.com/rss/sectors/containers"),
    ("Dry Bulk", "https://lloydslist.maritimeintelligence.informa.com/rss/sectors/dry-bulk"),
    ("Tankers & Gas", "https://lloydslist.maritimeintelligence.informa.com/rss/sectors/tankers-gas"),
    ("Ports & Logistics", "https://lloydslist.maritimeintelligence.informa.com/rss/sectors/ports-logistics"),
    ("Technology & Innovation", "https://lloydslist.maritimeintelligence.informa.com/rss/sectors/technology-innovation"),
    ("Finance", "https://lloydslist.maritimeintelligence.informa.com/rss/sectors/finance"),
    ("Insurance", "https://lloydslist.maritimeintelligence.informa.com/rss/sectors/insurance"),
    ("Law & Regulation", "https://lloydslist.maritimeintelligence.informa.com/rss/sectors/law-regulation"),
    ("Safety", "https://lloydslist.maritimeintelligence.informa.com/rss/sectors/safety"),
    ("Crew Welfare", "https://lloydslist.maritimeintelligence.informa.com/rss/sectors/crew-welfare") ]

/-- `FEEDS["topics"]`, in source insertion order. -/
def topicFeeds : List (String × String) :=
  [ ("Red Sea Risk", "https://lloydslist.maritimeintelligence.informa.com/rss/topics/red-sea-risk"),
    ("Ukraine Crisis", "https://lloydslist.maritimeintelligence.informa.com/rss/topics/ukraine-crisis"),
    ("Decarbonisation", "https://lloydslist.maritimeintelligence.informa.com/rss/topics/decarbonisation"),
    ("Sanctions", "https://lloydslist.maritimeintelligence.informa.com/rss/topics/sanctions"),
    ("Digitalisation", "https://lloydslist.maritimeintelligence.informa.com/rss/topics/digitalisation"),
    ("Piracy & Security", "https://lloydslist.maritimeintelligence.informa.com/rss/topics/piracy-security") ]

/-- `FEEDS["regulars"]`, in source insertion order. -/
def regularFeeds : List (String × String) :=
  [ ("Daily Briefing", "https://lloydslist.maritimeintelligence.informa.com/rss/daily-briefing"),
    ("The View", "https://lloydslist.maritimeintelligence.informa.com/rss/the-view"),
    ("Special Reports", "https://lloydslist.maritimeintelligence.informa.com/rss/special-reports"),
    ("Podcasts & Video", "https://lloydslist.maritimeintelligence.informa.com/rss/podcasts-video") ]

/-- `RSSFeedManager.FEEDS`: category to (name to url), insertion order. -/
def FEEDS : List (String × List (String × String)) :=
  [ ("sectors", sectorFeeds), ("topics", topicFeeds), ("regulars", regularFeeds) ]

/-- Shallow embedding of `RSSFeedManager._clean_summary`, applied to the
already-parsed summary markup (BeautifulSoup parsing is the external
primitive; the `if not summary` early return coincides with the empty
forest, whose text is empty).  Strips to plain text with single-space
separation, then truncates. -/
def clean_summary (summary : HtmlList) : String :=
  let text := summary.getTextSpaceStrip
  if text.data.length > 200 then ⟨text.data.take 197⟩ ++ "..." else text

/-- One normalized feed entry: the dict built by `_parse_entry`. -/
structure FeedEntry where
  title : String
  url : String
  date : String
  summary : String
  author : Option String
  tags : List String
  image_url : Option String
deriving DecidableEq, Repr

/-- The catalog-validation part of `RSSFeedManager.get_feed`: raises
ValueError (here `.error` with the exact message) for an unknown
category or feed name, and otherwise resolves the feed url and delegates
to `_fetch_feed` (represented by `.ok url`). -/
def get_feed_route (feed_type feed_name : String) : Except String String :=
  match alookup feed_type FEEDS with
  | none =>
      .error ("Invalid feed type: " ++ feed_type ++ ". Must be one of "
        ++ pyStrList (FEEDS.map Prod.fst))
  | some feeds =>
    match alookup feed_name feeds with
    | none =>
        .error ("Invalid feed name: " ++ feed_name ++ ". Available: "
          ++ pyStrList (feeds.map Prod.fst))
    | some url => .ok url

/-- The result of `_fetch_feed` for each catalog feed: its parsed entries,
or the exception it raised.  Search consults feeds only through this. -/
def SearchEnv := String × String → Except String (List FeedEntry)

/-- Python truthiness of an optional-string argument (`if sector:`). -/
def optTruthy (o : Option String) : Bool :=
  match o with
  | none => false
  | some s => decide (s ≠ "")

/-- The feed-scope selection of `search_articles`: a known non-empty
sector name gives that single sectors feed, else a known non-empty
category gives that single topics feed, else (both arguments missing or
empty) every catalog feed; a non-empty but unknown sector or category
leaves the scope empty. -/
def feeds_to_search (sector category : Option String) : List (String × String) :=
  if optTruthy sector then
    match sector with
    | some s => if (alookup s sectorFeeds).isSome then [("sectors", s)] else []
    | none => []
  else if optTruthy category then
    match category with
    | some c => if (alookup c topicFeeds).isSome then [("topics", c)] else []
    | none => []
  else
    FEEDS.flatMap (fun ft => ft.2.map (fun f => (ft.1, f.1)))

/-- The per-entry match test of `search_articles`:
`query_lower in title.lower() or query_lower in summary.lower()`. -/
def entry_matches (query_lower : String) (e : FeedEntry) : Bool :=
  strHasSub (lowerStr e.title) query_lower || strHasSub (lowerStr e.summary) query_lower

/-- The inner entry loop of `search_articles`: append each matching
entry to `results` and return `results[:limit]` (flag true) as soon as
`len(results) >= limit`. -/
def scanEntries (query_lower : String) (limit : Nat) :
    List FeedEntry → List FeedEntry → List FeedEntry × Bool
  | results, [] => (results, false)
  | results, e :: es =>
    if entry_matches query_lower e then
      let results2 := results ++ [e]
      if limit ≤ results2.length then (results2.take limit, true)
      else scanEntries query_lower limit results2 es
    else scanEntries query_lower limit results es

/-- The outer feed loop of `search_articles`: fetch each scoped feed,
skip those whose fetch raised, scan their entries, and return early when
the limit is hit; the final return is `results[:limit]`. -/
def searchGo (env : SearchEnv) (query_lower : String) (limit : Nat) :
    List FeedEntry → List (String × String) → List FeedEntry
  | results, [] => results.take limit
  | results, f :: fs =>
    match env f with
    | .error _ => searchGo env query_lower limit results fs
    | .ok entries =>
      match scanEntries query_lower limit results entries with
      | (results2, true) => results2
      | (results2, false) => searchGo env query_lower limit results2 fs

/-- Shallow embedding of `RSSFeedManager.search_articles`. -/
def search_articles (env : SearchEnv) (query : String)
    (sector category : Option String) (limit : Nat) : List FeedEntry :=
  searchGo env (lowerStr query) limit [] (feeds_to_search sector category)

/-- The specification-side description of the search result, written
from the words of the spec: the entries whose title or summary contains
the query case-insensitively, in feed-then-entry iteration order over
the scope, skipping feeds whose fetch failed. -/
def search_articles_spec (env : SearchEnv) (query : String)
    (scope : List (String × String)) : List FeedEntry :=
  scope.flatMap (fun f =>
    match env f with
    | .ok entries => entries.filter (entry_matches (lowerStr query))
    | .error _ => [])

end RSSFeedManager

/- ------------------------------------------------------------------ -/
/- server.py : the get_article_content tool                           -/
/- ------------------------------------------------------------------ -/

namespace Server

open ArticleFetcher SessionManager

/-- Shallow embedding of the `get_article_content` tool of server.py.
`user_session` keeps Python truthiness (a missing and an empty token
both skip the session lookup).  With a truthy token, a session-manager
miss short-circuits into the error payload of the source; otherwise the
decrypted `playwright_session` is handed to `fetch_article`.  The
updated session store is returned alongside the result. -/
def get_article_content (c : Cipher) (loads : String → Option Json)
    (extract : HtmlList → String → ArticleRecord)
    (resp authResp : HttpResult) (now : Int) (st : Store)
    (article_url : String) (user_session : Option String) :
    FetchOutcome × Store :=
  if RSSFeedManager.optTruthy user_session then
    match user_session with
    | some tok =>
      match get_session c loads now tok st with
      | (some v, st1) =>
        (fetch_article extract resp authResp article_url (some v.playwright_session), st1)
      | (none, st1) =>
        ({ status := "error", message := some "Invalid or expired session" }, st1)
    | none => (fetch_article extract resp authResp article_url none, st)
  else
    (fetch_article extract resp authResp article_url none, st)

end Server

/- ------------------------------------------------------------------ -/
/- Concrete documents and instances used by witnesses                 -/
/- ------------------------------------------------------------------ -/

/-- A document whose only paywall signal is a literal
`class="paywall"` wrapper. -/
def paywallClassDoc : HtmlList :=
  HtmlList.ofList
    [el "div" [("class", "paywall")] [Html.text "Article preview text."]]

/-- The same document with the hyphenated `premium-content` class instead. -/
def premiumClassDoc : HtmlList :=
  HtmlList.ofList
    [el "div" [("class", "premium-content")] [Html.text "Article preview text."]]

/-- A document carrying the "subscribe to read" text marker. -/
def textPaywallDoc : HtmlList :=
  HtmlList.ofList
    [el "article" [] [el "p" [] [Html.text "Subscribe to read the full story."]]]

/-- A stand-in extraction function for witnesses (extraction content is
orthogonal to every claim). -/
def dummyExtract : HtmlList → String → ArticleFetcher.ArticleRecord :=
  fun _ u => { url := u, title := "", full_text := "", author := none,
               date := none, tags := [], images := [] }

/-- The identity cipher: a Cipher satisfying the Fernet round-trip. -/
def idCipher : SessionManager.Cipher :=
  { encrypt := fun s => s, decrypt := fun s => some s }

/-- A cipher whose decrypt always fails (key rotated / data corrupted). -/
def failCipher : SessionManager.Cipher :=
  { encrypt := fun s => s, decrypt := fun _ => none }

/-- A trivially failing json.loads stand-in. -/
def noneLoads : String → Option Json := fun _ => none

/-- A one-point json.dumps stand-in for witnesses. -/
def unitDumps : Json → String := fun _ => "serialized"

/-- The matching json.loads stand-in: parses the one encoding back. -/
def unitLoads : String → Option Json := fun _ => some Json.null

/-- A session store holding one live record whose blob will not decrypt. -/
def corruptStore : SessionManager.Store :=
  [("sid1", { user_id := "alice", created_at := 0,
              playwright_session := Sum.inl "garbage" }, 1000)]

/-- A sample feed entry mentioning container rates. -/
def sampleEntry : RSSFeedManager.FeedEntry :=
  { title := "Container rates surge", url := "https://example.invalid/a",
    date := "Mon, 20 Jan 2026 10:00:00 GMT",
    summary := "Rates increased in early 2026.",
    author := some "Jane Doe", tags := ["Containers"], image_url := none }

/-- A search environment where only the Red Sea Risk topic feed has
entries; every other fetch succeeds with none. -/
def redSeaEnv : RSSFeedManager.SearchEnv :=
  fun f => if f = ("topics", "Red Sea Risk") then .ok [sampleEntry] else .ok []

/-- A search environment where every fetch succeeds with no entries. -/
def emptyEnv : RSSFeedManager.SearchEnv := fun _ => .ok []

/-- A 210-character text node, longer than the summary limit. -/
def longSummaryDoc : HtmlList :=
  HtmlList.ofList [Html.text (String.mk (List.replicate 210 'a'))]

/- ------------------------------------------------------------------ -/
/- Shared helper lemmas                                               -/
/- ------------------------------------------------------------------ -/

theorem alookup_storeDelete (sid : String) (st : SessionManager.Store) :
    alookup sid (SessionManager.storeDelete sid st) = none := by
  induction st with
  | nil => rfl
  | cons e st ih =>
    by_cases h : e.1 = sid
    · simpa [SessionManager.storeDelete, List.filter, h] using ih
    · simpa [SessionManager.storeDelete, List.filter, h, alookup,
        Ne.symm h] using ih

/- ------------------------------------------------------------------ -/
/- C1                                                                 -/
/- ------------------------------------------------------------------ -/

/-- C1: a literal `class="paywall"` element does NOT make the classifier
report a paywall.  The rule-1 loop only class-checks indicators
containing a hyphen or the substring "class", and the indicator
"paywall" has neither, so the document with only a `class="paywall"`
wrapper is classified `(false, none)` — against the claim that it always
yields `isPaywalled=true` with a reason citing "paywall".  By contrast,
the hyphenated indicator `premium-content` does fire rule 1, showing the
class machinery itself is live. -/
theorem c1_paywall_class_indicator_never_fires :
    ArticleFetcher.detect_paywall paywallClassDoc = (false, none) ∧
    ArticleFetcher.detect_paywall premiumClassDoc =
      (true, some "Found paywall class: premium-content") := by
  constructor
  · decide
  · decide

/- ------------------------------------------------------------------ -/
/- C6                                                                 -/
/- ------------------------------------------------------------------ -/

/-- C6: the cache freshness check returns true exactly when the entry
exists and `now - storedAt < ttl`; the configured TTL defaults to 300
seconds; a nonexistent entry is never fresh; a just-written entry is
fresh (for a positive TTL); and an entry is stale once the clock has
advanced past the TTL. -/
theorem c6_cache_freshness (mtime : Option Int) (now ttl m : Int) :
    (RSSFeedManager.is_cache_valid mtime now ttl = true ↔
      ∃ m0 : Int, mtime = some m0 ∧ now - m0 < ttl) ∧
    defaultSettings.feed_cache_ttl = 300 ∧
    RSSFeedManager.is_cache_valid none now ttl = false ∧
    (0 < ttl → RSSFeedManager.is_cache_valid (some now) now ttl = true) ∧
    (ttl ≤ now - m → RSSFeedManager.is_cache_valid (some m) now ttl = false) := by
  refine ⟨?_, rfl, rfl, ?_, ?_⟩
  · cases mtime with
    | none => simp [RSSFeedManager.is_cache_valid]
    | some m0 => simp [RSSFeedManager.is_cache_valid]
  · intro h
    simp [RSSFeedManager.is_cache_valid]
    omega
  · intro h
    simp [RSSFeedManager.is_cache_valid]
    omega

/-- Witness for C6 at concrete inputs: a just-written entry under the
default TTL is fresh, and the same entry 301 seconds later is stale. -/
theorem c6_cache_freshness_witness :
    RSSFeedManager.is_cache_valid (some 0) 0 300 = true ∧
    RSSFeedManager.is_cache_valid (some 0) 301 300 = false :=
  ⟨(c6_cache_freshness (some 0) 0 300 0).2.2.2.1 (by decide),
   (c6_cache_freshness (some 0) 301 300 0).2.2.2.2 (by decide)⟩

/- ------------------------------------------------------------------ -/
/- C7                                                                 -/
/- ------------------------------------------------------------------ -/

/-- C7: summary cleaning strips the markup to plain text; when the
stripped text exceeds 200 characters the result is its first 197
characters plus the three-character ellipsis marker — exactly 200
characters; otherwise the text is returned unchanged; in every case the
produced summary never exceeds 200 characters. -/
theorem c7_clean_summary_truncates (summary : HtmlList) :
    (200 < summary.getTextSpaceStrip.data.length →
      RSSFeedManager.clean_summary summary =
        ⟨summary.getTextSpaceStrip.data.take 197⟩ ++ "..." ∧
      (RSSFeedManager.clean_summary summary).data.length = 200) ∧
    (summary.getTextSpaceStrip.data.length ≤ 200 →
      RSSFeedManager.clean_summary summary = summary.getTextSpaceStrip) ∧
    (RSSFeedManager.clean_summary summary).data.length ≤ 200 := by
  by_cases h : summary.getTextSpaceStrip.data.length > 200
  · have he : RSSFeedManager.clean_summary summary =
        ⟨summary.getTextSpaceStrip.data.take 197⟩ ++ "..." := by
      simp only [RSSFeedManager.clean_summary]
      rw [if_pos h]
    have hd : (RSSFeedManager.clean_summary summary).data =
        summary.getTextSpaceStrip.data.take 197 ++ "...".data := by
      rw [he]; rfl
    have hlen : (RSSFeedManager.clean_summary summary).data.length = 200 := by
      have hsl : summary.getTextSpaceStrip.length = summary.getTextSpaceStrip.data.length := rfl
      rw [hd]
      simp [List.length_take]
      omega
    exact ⟨fun _ => ⟨he, hlen⟩, fun h2 => absurd h2 (by omega), by omega⟩
  · have he : RSSFeedManager.clean_summary summary = summary.getTextSpaceStrip := by
      simp only [RSSFeedManager.clean_summary]
      rw [if_neg h]
    refine ⟨fun h2 => absurd h2 (by omega), fun _ => he, ?_⟩
    rw [he]; omega

set_option maxRecDepth 8192 in
/-- Witness for C7: a 210-character summary is cut to the first 197
characters plus the ellipsis marker, totalling 200 characters. -/
theorem c7_clean_summary_witness :
    RSSFeedManager.clean_summary longSummaryDoc =
      String.mk (List.replicate 197 'a') ++ "..." ∧
    (RSSFeedManager.clean_summary longSummaryDoc).data.length = 200 := by
  have h := (c7_clean_summary_truncates longSummaryDoc).1 (by decide)
  refine ⟨?_, h.2⟩
  rw [h.1]
  decide

/- ------------------------------------------------------------------ -/
/- C4                                                                 -/
/- ------------------------------------------------------------------ -/

/-- C4: whenever the classifier reports a paywall and no storage state
is supplied, `fetch_article` returns the `authentication_required`
result, never `success`. -/
theorem c4_paywalled_without_state_requires_auth
    (extract : HtmlList → String → ArticleFetcher.ArticleRecord)
    (authResp : ArticleFetcher.HttpResult) (url : String) (html : HtmlList)
    (h : (ArticleFetcher.detect_paywall html).1 = true) :
    (ArticleFetcher.fetch_article extract (.ok html) authResp url none).status
        = "authentication_required" ∧
    (ArticleFetcher.fetch_article extract (.ok html) authResp url none).status
        ≠ "success" := by
  have he : ArticleFetcher.fetch_article extract (.ok html) authResp url none =
      { status := "authentication_required", paywall := some true,
        message := some "This article requires a Lloyd's List subscription",
        url := some url, reason := (ArticleFetcher.detect_paywall html).2 } := by
    simp [ArticleFetcher.fetch_article, h]
  have hs : (ArticleFetcher.fetch_article extract (.ok html) authResp url none).status
      = "authentication_required" := by rw [he]
  exact ⟨hs, by rw [hs]; decide⟩

/-- Witness for C4: the "subscribe to read" document is classified as
paywalled, and fetching it with no storage state yields
`authentication_required`. -/
theorem c4_paywalled_without_state_requires_auth_witness :
    (ArticleFetcher.detect_paywall textPaywallDoc).1 = true ∧
    (ArticleFetcher.fetch_article dummyExtract (.ok textPaywallDoc)
        (.err "down") "https://example.invalid/a" none).status
      = "authentication_required" :=
  ⟨by decide,
   (c4_paywalled_without_state_requires_auth dummyExtract (.err "down")
      "https://example.invalid/a" textPaywallDoc (by decide)).1⟩

/- ------------------------------------------------------------------ -/
/- C3                                                                 -/
/- ------------------------------------------------------------------ -/

/-- C3: `create_session` immediately followed by `get_session` on the
returned id yields the stored record: the same user id and the
credential state unchanged (given the round-trip contracts of the
serializer and the cipher, and a non-negative configured TTL). -/
theorem c3_create_then_get_roundtrip
    (c : SessionManager.Cipher) (dumps : Json → String)
    (loads : String → Option Json) (stg : Settings) (now : Int)
    (sid user_id : String) (ps : Json) (st : SessionManager.Store)
    (hcipher : c.decrypt (c.encrypt (dumps ps)) = some (dumps ps))
    (hjson : loads (dumps ps) = some ps)
    (httl : 0 ≤ stg.session_ttl) :
    (SessionManager.get_session c loads now sid
        (SessionManager.create_session c dumps stg now sid user_id ps none st).2).1 =
      some { user_id := user_id, created_at := now, playwright_session := ps } := by
  have hnx : ¬ now > now + stg.session_ttl := by omega
  simp [SessionManager.create_session, SessionManager.get_session,
        SessionManager.storeGet, SessionManager.storeSet,
        SessionManager.effectiveTtl, alookup, hnx, hcipher, hjson]

/-- Witness for C3 with the identity cipher, a one-point serializer,
default settings, an empty store and the null credential state. -/
theorem c3_create_then_get_roundtrip_witness :
    (SessionManager.get_session idCipher unitLoads 0 "sid"
        (SessionManager.create_session idCipher unitDumps defaultSettings 0
          "sid" "alice" Json.null none []).2).1 =
      some { user_id := "alice", created_at := 0, playwright_session := Json.null } :=
  c3_create_then_get_roundtrip idCipher unitDumps unitLoads defaultSettings 0
    "sid" "alice" Json.null [] rfl rfl (by decide)

/- ------------------------------------------------------------------ -/
/- C5                                                                 -/
/- ------------------------------------------------------------------ -/

/-- C5: a stored, unexpired session whose blob fails to decrypt is
reported exactly like a nonexistent session (None) and the corrupt
record is deleted from the backing store before returning. -/
theorem c5_undecryptable_session_missing_and_deleted
    (c : SessionManager.Cipher) (loads : String → Option Json) (now : Int)
    (sid : String) (st : SessionManager.Store)
    (d : SessionManager.StoredSession) (exp : Int) (blob : String)
    (hfind : alookup sid st = some (d, exp))
    (hlive : ¬ now > exp)
    (hblob : d.playwright_session = .inl blob)
    (hfail : c.decrypt blob = none) :
    SessionManager.get_session c loads now sid st =
      (none, SessionManager.storeDelete sid st) ∧
    alookup sid (SessionManager.get_session c loads now sid st).2 = none := by
  have he : SessionManager.get_session c loads now sid st =
      (none, SessionManager.storeDelete sid st) := by
    simp [SessionManager.get_session, SessionManager.storeGet, hfind, hlive,
          hblob, hfail]
  exact ⟨he, by rw [he]; exact alookup_storeDelete sid st⟩

/-- Witness for C5: a store with one live but undecryptable record ends
up empty and the lookup reports a miss. -/
theorem c5_undecryptable_session_witness :
    SessionManager.get_session failCipher noneLoads 0 "sid1" corruptStore =
      (none, ([] : SessionManager.Store)) ∧
    alookup "sid1"
      (SessionManager.get_session failCipher noneLoads 0 "sid1" corruptStore).2 = none :=
  c5_undecryptable_session_missing_and_deleted failCipher noneLoads 0 "sid1"
    corruptStore
    { user_id := "alice", created_at := 0, playwright_session := Sum.inl "garbage" }
    1000 "garbage" rfl (by decide) rfl rfl

/- ------------------------------------------------------------------ -/
/- C8                                                                 -/
/- ------------------------------------------------------------------ -/

theorem alookup_some_mem [DecidableEq κ] (k : κ) (l : List (κ × α)) (v : α)
    (h : alookup k l = some v) : v ∈ l.map Prod.snd := by
  induction l with
  | nil => simp [alookup] at h
  | cons e rest ih =>
    by_cases hk : k = e.1
    · simp [alookup, hk] at h
      simp [h]
    · simp [alookup, hk] at h
      simp [ih h]

/-- C8: feed routing with an unknown category fails with the ValueError
whose message lists every valid category; a known category with an
unknown feed name fails with the ValueError whose message lists every
feed name of that category; in both cases the result is never a
successful one. -/
theorem c8_unknown_feed_errors_enumerate (feed_type feed_name : String) :
    (alookup feed_type RSSFeedManager.FEEDS = none →
      RSSFeedManager.get_feed_route feed_type feed_name =
        .error ("Invalid feed type: " ++ feed_type ++ ". Must be one of "
          ++ pyStrList (RSSFeedManager.FEEDS.map Prod.fst)) ∧
      (∀ cat ∈ RSSFeedManager.FEEDS.map Prod.fst,
        strHasSub ("Invalid feed type: " ++ feed_type ++ ". Must be one of "
          ++ pyStrList (RSSFeedManager.FEEDS.map Prod.fst)) cat = true) ∧
      (∀ u, RSSFeedManager.get_feed_route feed_type feed_name ≠ .ok u)) ∧
    (∀ feeds, alookup feed_type RSSFeedManager.FEEDS = some feeds →
      alookup feed_name feeds = none →
      RSSFeedManager.get_feed_route feed_type feed_name =
        .error ("Invalid feed name: " ++ feed_name ++ ". Available: "
          ++ pyStrList (feeds.map Prod.fst)) ∧
      (∀ nm ∈ feeds.map Prod.fst,
        strHasSub ("Invalid feed name: " ++ feed_name ++ ". Available: "
          ++ pyStrList (feeds.map Prod.fst)) nm = true) ∧
      (∀ u, RSSFeedManager.get_feed_route feed_type feed_name ≠ .ok u)) := by
  constructor
  · intro h
    have he : RSSFeedManager.get_feed_route feed_type feed_name =
        .error ("Invalid feed type: " ++ feed_type ++ ". Must be one of "
          ++ pyStrList (RSSFeedManager.FEEDS.map Prod.fst)) := by
      simp only [RSSFeedManager.get_feed_route, h]
    refine ⟨he, ?_, ?_⟩
    · intro cat hcat
      have hc : cat = "sectors" ∨ cat = "topics" ∨ cat = "regulars" := by
        simpa [RSSFeedManager.FEEDS] using hcat
      apply strHasSub_append_left
      rcases hc with rfl | rfl | rfl <;> decide
    · intro u hu
      rw [he] at hu
      exact absurd hu (by simp)
  · intro feeds h hn
    have he : RSSFeedManager.get_feed_route feed_type feed_name =
        .error ("Invalid feed name: " ++ feed_name ++ ". Available: "
          ++ pyStrList (feeds.map Prod.fst)) := by
      simp only [RSSFeedManager.get_feed_route, h, hn]
    refine ⟨he, ?_, ?_⟩
    · intro nm hnm
      have hmem := alookup_some_mem feed_type RSSFeedManager.FEEDS feeds h
      have hc : feeds = RSSFeedManager.sectorFeeds ∨
          feeds = RSSFeedManager.topicFeeds ∨
          feeds = RSSFeedManager.regularFeeds := by
        simpa [RSSFeedManager.FEEDS] using hmem
      apply strHasSub_append_left
      rcases hc with rfl | rfl | rfl <;>
        · simp [RSSFeedManager.sectorFeeds, RSSFeedManager.topicFeeds,
            RSSFeedManager.regularFeeds] at hnm
          rcases hnm with rfl | rfl | rfl | rfl | rfl | rfl | rfl | rfl | rfl | rfl <;>
            decide
    · intro u hu
      rw [he] at hu
      exact absurd hu (by simp)

/-- Witness for C8: `get_feed_route "bogus" "nonexistent"` fails with the
category-enumerating message, and each category name occurs in it; and
`get_feed_route "sectors" "nonexistent"` fails with the name-enumerating
message containing, e.g., "Containers". -/
theorem c8_unknown_feed_errors_witness :
    RSSFeedManager.get_feed_route "bogus" "nonexistent" =
      .error ("Invalid feed type: " ++ "bogus" ++ ". Must be one of "
        ++ pyStrList (RSSFeedManager.FEEDS.map Prod.fst)) ∧
    strHasSub ("Invalid feed type: " ++ "bogus" ++ ". Must be one of "
        ++ pyStrList (RSSFeedManager.FEEDS.map Prod.fst)) "sectors" = true ∧
    RSSFeedManager.get_feed_route "sectors" "nonexistent" =
      .error ("Invalid feed name: " ++ "nonexistent" ++ ". Available: "
        ++ pyStrList (RSSFeedManager.sectorFeeds.map Prod.fst)) ∧
    strHasSub ("Invalid feed name: " ++ "nonexistent" ++ ". Available: "
        ++ pyStrList (RSSFeedManager.sectorFeeds.map Prod.fst)) "Containers" = true := by
  have h1 := (c8_unknown_feed_errors_enumerate "bogus" "nonexistent").1 (by decide)
  have h2 := (c8_unknown_feed_errors_enumerate "sectors" "nonexistent").2
    RSSFeedManager.sectorFeeds rfl (by decide)
  exact ⟨h1.1, h1.2.1 "sectors" (by decide), h2.1,
    h2.2.1 "Containers" (by decide)⟩

/- ------------------------------------------------------------------ -/
/- C9                                                                 -/
/- ------------------------------------------------------------------ -/

theorem scanEntries_spec (ql : String) (limit : Nat)
    (es acc : List RSSFeedManager.FeedEntry) :
    RSSFeedManager.scanEntries ql limit acc es =
      (if (es.filter (RSSFeedManager.entry_matches ql)).isEmpty then (acc, false)
       else if limit ≤ acc.length + (es.filter (RSSFeedManager.entry_matches ql)).length then
         ((acc ++ es.filter (RSSFeedManager.entry_matches ql)).take limit, true)
       else (acc ++ es.filter (RSSFeedManager.entry_matches ql), false)) := by
  induction es generalizing acc with
  | nil => simp [RSSFeedManager.scanEntries]
  | cons e es ih =>
    by_cases hm : RSSFeedManager.entry_matches ql e
    · by_cases hl : limit ≤ (acc ++ [e]).length
      · have hl2 : limit ≤ acc.length +
            ((e :: es).filter (RSSFeedManager.entry_matches ql)).length := by
          simp only [List.filter_cons, hm, if_pos]
          simp at hl ⊢
          omega
        simp only [RSSFeedManager.scanEntries, hm, if_pos, hl, ite_true,
          List.filter_cons, List.isEmpty_cons, ite_false, hl2]
        have hsplit : acc ++ e :: es.filter (RSSFeedManager.entry_matches ql) =
            (acc ++ [e]) ++ es.filter (RSSFeedManager.entry_matches ql) := by
          simp
        rw [hsplit, List.take_append_of_le_length hl]
        have hc : limit ≤ acc.length +
            ((es.filter (RSSFeedManager.entry_matches ql)).length + 1) := by
          simp at hl
          omega
        simp [List.length_cons, hc]
      · simp only [RSSFeedManager.scanEntries, hm, if_pos, hl, ite_false]
        rw [ih (acc ++ [e])]
        simp only [List.filter_cons, hm, if_pos, List.isEmpty_cons, ite_false]
        by_cases hF : (es.filter (RSSFeedManager.entry_matches ql)).isEmpty
        · rw [List.isEmpty_iff] at hF
          rw [hF]
          have hno : ¬ limit ≤ acc.length + 1 := by
            simp at hl
            omega
          simp [hF, hno]
        · simp only [hF, ite_false]
          have harith : (limit ≤ (acc ++ [e]).length +
              (es.filter (RSSFeedManager.entry_matches ql)).length) ↔
              (limit ≤ acc.length +
                (e :: es.filter (RSSFeedManager.entry_matches ql)).length) := by
            simp
            omega
          by_cases hl3 : limit ≤ (acc ++ [e]).length +
              (es.filter (RSSFeedManager.entry_matches ql)).length
          · simp only [hl3, ite_true, harith.mp hl3, ite_true, List.append_assoc,
              List.singleton_append]
            simp
          · simp only [hl3, ite_false, (not_iff_not.mpr harith).mp hl3, ite_false,
              List.append_assoc, List.singleton_append]
            simp
    · simp only [RSSFeedManager.scanEntries, hm, ite_false, List.filter_cons,
        ite_false, if_neg, Bool.false_eq_true]
      rw [ih acc]

theorem searchGo_spec (env : RSSFeedManager.SearchEnv) (ql : String) (limit : Nat)
    (fs : List (String × String)) (acc : List RSSFeedManager.FeedEntry) :
    RSSFeedManager.searchGo env ql limit acc fs =
      (acc ++ fs.flatMap (fun f =>
        match env f with
        | .ok entries => entries.filter (RSSFeedManager.entry_matches ql)
        | .error _ => [])).take limit := by
  induction fs generalizing acc with
  | nil => simp [RSSFeedManager.searchGo]
  | cons f fs ih =>
    cases henv : env f with
    | error e =>
      simp only [RSSFeedManager.searchGo, henv, List.flatMap_cons, List.nil_append]
      rw [ih acc]
    | ok entries =>
      simp only [RSSFeedManager.searchGo, henv, List.flatMap_cons]
      rw [scanEntries_spec]
      by_cases hF : (entries.filter (RSSFeedManager.entry_matches ql)).isEmpty
      · rw [if_pos hF]
        show RSSFeedManager.searchGo env ql limit acc fs = _
        rw [ih acc, List.isEmpty_iff.mp hF]
        simp
      · rw [if_neg hF]
        by_cases hl : limit ≤ acc.length +
            (entries.filter (RSSFeedManager.entry_matches ql)).length
        · rw [if_pos hl]
          show List.take limit
              (acc ++ entries.filter (RSSFeedManager.entry_matches ql)) = _
          have hlen : limit ≤
              (acc ++ entries.filter (RSSFeedManager.entry_matches ql)).length := by
            simp [List.length_append]
            omega
          rw [← List.append_assoc, List.take_append_of_le_length hlen]
        · rw [if_neg hl]
          show RSSFeedManager.searchGo env ql limit
              (acc ++ entries.filter (RSSFeedManager.entry_matches ql)) fs = _
          rw [ih]
          rw [List.append_assoc]

/-- C9: `search_articles` returns exactly the entries of the scoped feeds
whose title or summary contains the query case-insensitively, in
feed-then-entry iteration order (skipping feeds whose fetch failed),
truncated to the first `limit` matches; in particular a query matching
nothing yields the empty sequence, not an error. -/
theorem c9_search_articles_is_filter_take (env : RSSFeedManager.SearchEnv)
    (query : String) (sector category : Option String) (limit : Nat) :
    RSSFeedManager.search_articles env query sector category limit =
      (RSSFeedManager.search_articles_spec env query
        (RSSFeedManager.feeds_to_search sector category)).take limit := by
  unfold RSSFeedManager.search_articles RSSFeedManager.search_articles_spec
  rw [searchGo_spec]
  simp

/- ------------------------------------------------------------------ -/
/- C10                                                                -/
/- ------------------------------------------------------------------ -/

/-- C10 counterexample: an empty-string sector argument is "a sector
argument that is not a key of the sectors catalog", yet the scope is not
empty and the result not the empty list, and the simultaneously supplied
category is not ignored: Python truthiness treats the empty string as
absent and routes selection to the category branch. -/
theorem c10_counterexample_empty_sector :
    alookup "" RSSFeedManager.sectorFeeds = none ∧
    RSSFeedManager.feeds_to_search (some "") (some "Red Sea Risk") =
      [("topics", "Red Sea Risk")] ∧
    RSSFeedManager.search_articles redSeaEnv "container" (some "")
        (some "Red Sea Risk") 10 = [sampleEntry] := by
  refine ⟨rfl, by decide, by decide⟩

/-- C10 (amended): only a NON-EMPTY sector argument that is not a key of
the sectors catalog forces the empty scope and the empty result; likewise
a non-empty unknown category when the sector is missing or empty; a
non-empty sector makes the category argument irrelevant to the scope; and
an empty-string sector is treated as if no sector was supplied. -/
theorem c10_unknown_scope_empty_amended
    (env : RSSFeedManager.SearchEnv) (query : String) (limit : Nat)
    (sector category : Option String) :
    (∀ s, sector = some s → s ≠ "" → alookup s RSSFeedManager.sectorFeeds = none →
      RSSFeedManager.feeds_to_search sector category = [] ∧
      RSSFeedManager.search_articles env query sector category limit = []) ∧
    ((sector = none ∨ sector = some "") →
      ∀ cg, category = some cg → cg ≠ "" →
      alookup cg RSSFeedManager.topicFeeds = none →
      RSSFeedManager.feeds_to_search sector category = [] ∧
      RSSFeedManager.search_articles env query sector category limit = []) ∧
    (∀ s, sector = some s → s ≠ "" →
      RSSFeedManager.feeds_to_search sector category =
        RSSFeedManager.feeds_to_search sector none) ∧
    RSSFeedManager.feeds_to_search (some "") category =
      RSSFeedManager.feeds_to_search none category := by
  refine ⟨?_, ?_, ?_, ?_⟩
  · intro s hs hne hlk
    subst hs
    have hf : RSSFeedManager.feeds_to_search (some s) category = [] := by
      simp [RSSFeedManager.feeds_to_search, RSSFeedManager.optTruthy, hne, hlk]
    exact ⟨hf, by
      simp [RSSFeedManager.search_articles, hf, RSSFeedManager.searchGo]⟩
  · intro hsec cg hc hne hlk
    have hs0 : RSSFeedManager.optTruthy sector = false := by
      rcases hsec with rfl | rfl <;> simp [RSSFeedManager.optTruthy]
    subst hc
    have hct : RSSFeedManager.optTruthy (some cg) = true := by
      simp [RSSFeedManager.optTruthy, hne]
    have hf : RSSFeedManager.feeds_to_search sector (some cg) = [] := by
      simp [RSSFeedManager.feeds_to_search, hs0, hct, hlk]
    exact ⟨hf, by
      simp [RSSFeedManager.search_articles, hf, RSSFeedManager.searchGo]⟩
  · intro s hs hne
    subst hs
    simp [RSSFeedManager.feeds_to_search, RSSFeedManager.optTruthy, hne]
  · simp [RSSFeedManager.feeds_to_search, RSSFeedManager.optTruthy]

/-- Witness for the amended C10: a non-empty unknown sector, and a
non-empty unknown category with no sector, both give the empty scope and
the empty result. -/
theorem c10_unknown_scope_empty_witness :
    RSSFeedManager.feeds_to_search (some "bogus") none = [] ∧
    RSSFeedManager.search_articles emptyEnv "x" (some "bogus") none 10 = [] ∧
    RSSFeedManager.feeds_to_search none (some "bogus") = [] ∧
    RSSFeedManager.search_articles emptyEnv "x" none (some "bogus") 10 = [] := by
  have h1 := (c10_unknown_scope_empty_amended emptyEnv "x" 10 (some "bogus")
    none).1 "bogus" rfl (by decide) (by decide)
  have h2 := (c10_unknown_scope_empty_amended emptyEnv "x" 10 none
    (some "bogus")).2.1 (Or.inl rfl) "bogus" rfl (by decide) (by decide)
  exact ⟨h1.1, h1.2, h2.1, h2.2⟩

/- ------------------------------------------------------------------ -/
/- C2                                                                 -/
/- ------------------------------------------------------------------ -/

/-- C2 counterexample: on the same paywalled article, a supplied-but-
unknown session token produces the error payload, while no token at all
produces `authentication_required` — the two requests do NOT behave
identically, so a corrupt or expired token is not treated like a missing
one. -/
theorem c2_counterexample_invalid_token_distinct :
    (Server.get_article_content idCipher noneLoads dummyExtract
        (.ok textPaywallDoc) (.err "down") 0 [] "https://example.invalid/a"
        (some "tok")).1.status = "error" ∧
    (Server.get_article_content idCipher noneLoads dummyExtract
        (.ok textPaywallDoc) (.err "down") 0 [] "https://example.invalid/a"
        none).1.status = "authentication_required" ∧
    (Server.get_article_content idCipher noneLoads dummyExtract
        (.ok textPaywallDoc) (.err "down") 0 [] "https://example.invalid/a"
        (some "tok")).1 ≠
      (Server.get_article_content idCipher noneLoads dummyExtract
        (.ok textPaywallDoc) (.err "down") 0 [] "https://example.invalid/a"
        none).1 := by
  refine ⟨by decide, by decide, by decide⟩

/-- C2 (amended): only a missing or empty-string session token behaves
like "no session provided" (the request proceeds unauthenticated, and a
paywalled article then yields `authentication_required`); a supplied
non-empty token that is unknown, expired or corrupt instead
short-circuits with the distinct error payload "Invalid or expired
session". -/
theorem c2_session_handling_amended
    (c : SessionManager.Cipher) (loads : String → Option Json)
    (extract : HtmlList → String → ArticleFetcher.ArticleRecord)
    (resp authResp : ArticleFetcher.HttpResult) (now : Int)
    (st : SessionManager.Store) (url : String) :
    (Server.get_article_content c loads extract resp authResp now st url none =
      (ArticleFetcher.fetch_article extract resp authResp url none, st)) ∧
    (Server.get_article_content c loads extract resp authResp now st url (some "") =
      (ArticleFetcher.fetch_article extract resp authResp url none, st)) ∧
    (∀ html, resp = .ok html → (ArticleFetcher.detect_paywall html).1 = true →
      (Server.get_article_content c loads extract resp authResp now st url
          none).1.status = "authentication_required") ∧
    (∀ tok, tok ≠ "" →
      (SessionManager.get_session c loads now tok st).1 = none →
      Server.get_article_content c loads extract resp authResp now st url
          (some tok) =
        ({ status := "error", message := some "Invalid or expired session" },
         (SessionManager.get_session c loads now tok st).2)) := by
  refine ⟨rfl, rfl, ?_, ?_⟩
  · intro html hr hp
    subst hr
    have he : ArticleFetcher.fetch_article extract (.ok html) authResp url none =
        { status := "authentication_required", paywall := some true,
          message := some "This article requires a Lloyd's List subscription",
          url := some url, reason := (ArticleFetcher.detect_paywall html).2 } := by
      simp [ArticleFetcher.fetch_article, hp]
    show (ArticleFetcher.fetch_article extract (.ok html) authResp url none).status = _
    rw [he]
  · intro tok hne hmiss
    have ht : RSSFeedManager.optTruthy (some tok) = true := by
      simp [RSSFeedManager.optTruthy, hne]
    rcases hgs : SessionManager.get_session c loads now tok st with ⟨o, st2⟩
    rw [hgs] at hmiss
    simp at hmiss
    subst hmiss
    simp [Server.get_article_content, ht, hgs]

/-- Witness for the amended C2: with an empty store, the no-token request
on a paywalled article yields `authentication_required`, and the
"tok" request yields the invalid-session error payload. -/
theorem c2_session_handling_witness :
    (Server.get_article_content idCipher noneLoads dummyExtract
        (.ok textPaywallDoc) (.err "down") 0 [] "u" none).1.status =
      "authentication_required" ∧
    Server.get_article_content idCipher noneLoads dummyExtract
        (.ok textPaywallDoc) (.err "down") 0 [] "u" (some "tok") =
      ({ status := "error", message := some "Invalid or expired session" },
       ([] : SessionManager.Store)) := by
  have h := c2_session_handling_amended idCipher noneLoads dummyExtract
    (.ok textPaywallDoc) (.err "down") 0 [] "u"
  exact ⟨h.2.2.1 textPaywallDoc rfl (by decide),
    h.2.2.2 "tok" (by decide) rfl⟩
